import Mathlib

/-!
Shallow embedding in Lean 4 of the Blender add-on `src/addons/SplitParts.py`
(the "Split Parts" operator). The host application's scene state is made
explicit: an object is its location, its local orientation (a 3x3 matrix over
the rationals, modelling the rotation part of the world matrix) and its
interaction mode; a collection is a list of objects; `bpy.ops.transform.translate`
with `orient_type = LOCAL` adds the rotation matrix applied to the value vector
to the location. Strings are lists of characters so that the path and name
manipulations of the export helper (`os.path.basename`, `os.path.splitext`,
`os.path.join`, `re.sub`, `bpy.path.ensure_ext`, `bpy.path.abspath`) can be
reproduced faithfully.
-/

namespace SplitPartsModel

/-- A 3-vector over the rationals (models `mathutils.Vector` of length 3). -/
structure Vec3 where mk ::
  vx : ℚ
  vy : ℚ
  vz : ℚ
deriving DecidableEq, Repr

instance : Add Vec3 := ⟨fun a b => ⟨a.vx + b.vx, a.vy + b.vy, a.vz + b.vz⟩⟩

instance : Sub Vec3 := ⟨fun a b => ⟨a.vx - b.vx, a.vy - b.vy, a.vz - b.vz⟩⟩

instance : Neg Vec3 := ⟨fun a => ⟨-a.vx, -a.vy, -a.vz⟩⟩

/-- A 3x3 matrix over the rationals, given by its rows; models the rotation
part of an object's world matrix (its local orientation). -/
structure Mat3 where mk ::
  r1 : Vec3
  r2 : Vec3
  r3 : Vec3
deriving DecidableEq, Repr

def dot (a b : Vec3) : ℚ := a.vx * b.vx + a.vy * b.vy + a.vz * b.vz

def Mat3.mulVec (m : Mat3) (v : Vec3) : Vec3 :=
  ⟨dot m.r1 v, dot m.r2 v, dot m.r3 v⟩

/-- The identity orientation. -/
def idMat : Mat3 := ⟨⟨1, 0, 0⟩, ⟨0, 1, 0⟩, ⟨0, 0, 1⟩⟩

/-- Blender interaction modes used by the add-on. -/
inductive Mode where
  | OBJECT : Mode
  | EDIT : Mode
deriving DecidableEq, Repr

/-- A scene object as far as the add-on observes and mutates it: a name, a
location, a local orientation, and the current interaction mode. -/
structure Obj where mk ::
  name : List Char
  location : Vec3
  rot : Mat3
  mode : Mode
deriving DecidableEq, Repr

/-- `bpy.ops.transform.translate(value, constraint_axis, orient_type = LOCAL)`:
the object's location moves by the value vector expressed in the object's
local orientation, that is by `rot * value` in the world frame. -/
def translateLocal (o : Obj) (v : Vec3) : Obj :=
  { o with location := o.location + o.rot.mulVec v }

/-- `bpy.ops.object.mode_set(mode = m)` on the active object. -/
def modeSet (o : Obj) (m : Mode) : Obj := { o with mode := m }

/-- `SplitParts.get_local_axis_vector(self, object, X, Y, Z)` (lines 52-74 of
`SplitParts.py`): remember the current mode, switch to OBJECT mode, record the
location as `v1`, translate by `(X, Y, Z)` in local orientation, record the
location as `v2`, translate back by `(-X, -Y, -Z)`, restore the mode, and
return `v1 - v2`.  The result is returned together with the object state the
call leaves behind. -/
def get_local_axis_vector (o : Obj) (X Y Z : ℚ) : Vec3 × Obj :=
  let current_mode := o.mode
  let o0 := modeSet o Mode.OBJECT
  let v1 := o0.location
  let o1 := translateLocal o0 ⟨X, Y, Z⟩
  let v2 := o1.location
  let o2 := translateLocal o1 ⟨-X, -Y, -Z⟩
  let o3 := modeSet o2 current_mode
  (v1 - v2, o3)

/-- `bpy.ops.object.duplicate(linked = False)`: a full, independent copy of
the active object; every field the add-on observes is copied. -/
def duplicate (o : Obj) : Obj := o

/-- `SplitParts.get_inner_and_outer(self, inner)` (lines 76-87): deselect all,
select and activate `inner`, duplicate it; the duplicate becomes the active
object and is returned as `outer` alongside the original `inner`. -/
def get_inner_and_outer (inner : Obj) : Obj × Obj := (inner, duplicate inner)

/-- The f-string `f"Part (index) - (X)-(Y)-(Z) - (role)"` used on lines 93-94
to rename the two halves (`role` is `"Inner"` or `"Outer"`). -/
def partName (index X Y Z : Nat) (role : List Char) : List Char :=
  ("Part ".toList ++ (toString index).toList) ++
    ((" - ".toList ++ (toString X).toList) ++ ("-".toList ++ (toString Y).toList) ++
      ("-".toList ++ (toString Z).toList)) ++
    (" - ".toList ++ role)

/-- The keyword arguments of `bpy.ops.mesh.bisect` as invoked on lines
111-122. -/
structure BisectArgs where mk ::
  plane_co : Vec3
  plane_no : Vec3
  use_fill : Bool
  clear_inner : Bool
  clear_outer : Bool
  threshold : ℚ
deriving DecidableEq, Repr

/-- The body of the per-subobject loop of `cut_along_axis` (lines 96-124):
given the bound `subobject` and `is_inner` flag, the loop computes
`cut_normal = get_local_axis_vector(subobject, X, Y, Z)` and calls
`bpy.ops.mesh.bisect` with the plane anchored at `subobject.location`, normal
`cut_normal`, `use_fill = True`, `clear_inner = not is_inner`,
`clear_outer = is_inner`, `threshold = 0`. -/
def cutStepArgs (subobject : Obj) (is_inner : Bool) (X Y Z : ℚ) : BisectArgs :=
  let cut_normal := (get_local_axis_vector subobject X Y Z).1
  { plane_co := subobject.location
    plane_no := cut_normal
    use_fill := true
    clear_inner := !is_inner
    clear_outer := is_inner
    threshold := 0 }

/-- One iteration of the `for index, object in enumerate(list(objects))` loop
of `cut_along_axis` (lines 90-94), restricted to the collection contents it
produces: the original is renamed to the Inner part name and the duplicate to
the Outer part name. -/
def renamedPair (index X Y Z : Nat) (obj : Obj) : Obj × Obj :=
  let p := get_inner_and_outer obj
  ({ p.1 with name := partName index X Y Z "Inner".toList },
   { p.2 with name := partName index X Y Z "Outer".toList })

/-- The collection contents after `SplitParts.cut_along_axis` (lines 89-124)
has run over a snapshot of the collection, threading the `enumerate` index:
each current piece contributes its renamed self (Inner) and its renamed
duplicate (Outer). -/
def cutFrom (X Y Z : Nat) : Nat → List Obj → List Obj
  | _, [] => []
  | index, obj :: rest =>
    (renamedPair index X Y Z obj).1 :: (renamedPair index X Y Z obj).2 ::
      cutFrom X Y Z (index + 1) rest

/-- `SplitParts.cut_along_axis(self, objects, X, Y, Z)` as a transformation of
the working collection's contents. -/
def cut_along_axis (objects : List Obj) (X Y Z : Nat) : List Obj :=
  cutFrom X Y Z 0 objects

/-- The axis-pass section of `SplitParts.execute` (lines 188-194): unpack the
three axis booleans and run `cut_along_axis` on the collection for each
enabled axis, in the fixed order X then Y then Z. -/
def executeCuts (pieces : List Obj) (axis : Bool × Bool × Bool) : List Obj :=
  let c1 := if axis.1 then cut_along_axis pieces 1 0 0 else pieces
  let c2 := if axis.2.1 then cut_along_axis c1 0 1 0 else c1
  if axis.2.2 then cut_along_axis c2 0 0 1 else c2

/-- The number of enabled axes among the three booleans. -/
def enabledCount (axis : Bool × Bool × Bool) : Nat :=
  (if axis.1 then 1 else 0) + (if axis.2.1 then 1 else 0) +
    (if axis.2.2 then 1 else 0)

/-- A Python value as it occurs inside the pair-like set literals
`[{ inner, True }, { outer, False }]` on line 96: either a scene object or a
boolean. -/
inductive PyVal where
  | objV : Obj → PyVal
  | boolV : Bool → PyVal
deriving DecidableEq, Repr

/-- Iterating a two-element Python set yields its two elements in an order
that is not guaranteed; the order is made explicit as a parameter: `firstA`
chooses which element comes first.  Unpacking the iteration into
`subobject, is_inner` gives the returned pair. -/
def pairIter (a b : PyVal) (firstA : Bool) : PyVal × PyVal :=
  if firstA then (a, b) else (b, a)

/-- The `(subobject, is_inner)` binding produced by unpacking the set
`{ inner, True }` of line 96 under a given iteration order. -/
def innerPairBinding (inner : Obj) (ord : Bool) : PyVal × PyVal :=
  pairIter (PyVal.objV inner) (PyVal.boolV true) ord

/-- The `(subobject, is_inner)` binding produced by unpacking the set
`{ outer, False }` of line 96 under a given iteration order. -/
def outerPairBinding (outer : Obj) (ord : Bool) : PyVal × PyVal :=
  pairIter (PyVal.objV outer) (PyVal.boolV false) ord

/-- The derived collection name `f'(context.object.name)_parts'` of line
163. -/
def collectionNameFor (objName : List Char) : List Char :=
  objName ++ "_parts".toList

/-- `bpy.data.collections.new(name)`: creates a collection; when the requested
name is already taken the host appends a numeric suffix (".001") to keep
names unique. -/
def collections_new (existing : List (List Char)) (name : List Char) : List Char :=
  if name ∈ existing then name ++ ".001".toList else name

/-- The collection lookup of `execute` (lines 166-170): indexing
`bpy.data.collections[collection_name]` raises `KeyError` when the name is
absent; only then is a new collection created and linked into the scene.
Returns the name of the collection used together with the updated list of
existing collection names. -/
def getOrCreateCollection (existing : List (List Char)) (name : List Char) :
    List Char × List (List Char) :=
  if name ∈ existing then (name, existing)
  else
    let fresh := collections_new existing name
    (fresh, existing ++ [fresh])

/-- The characters removed by the regular expression of line 147,
`re.sub(r'[\\/:*?"<>|]', "", object.name)`. -/
def badChars : List Char := ['\\', '/', ':', '*', '?', '\"', '<', '>', '|']

/-- The sanitization of line 147: every occurrence of a character of
`badChars` is removed from the name. -/
def sanitize (s : List Char) : List Char :=
  s.filter (fun c => !decide (c ∈ badChars))

/-- Lower-casing of a string, used by the case-insensitive extension test of
`bpy.path.ensure_ext`. -/
def lowerL (s : List Char) : List Char := s.map Char.toLower

/-- The extension string `".stl"` passed to `bpy.path.ensure_ext` on line
151. -/
def stlExt : List Char := ".stl".toList

/-- `os.path.basename` (POSIX): the part of the path after the last
separator. -/
def basename (s : List Char) : List Char :=
  (s.reverse.takeWhile (fun c => !decide (c = '/'))).reverse

/-- The extension component of `os.path.splitext` on a separator-free file
name: the suffix starting at the last dot, provided some earlier character of
the name is not a dot (leading dots never start an extension); `[]` when there
is no extension. -/
def extPart (s : List Char) : List Char :=
  let rest := s.dropWhile (fun c => decide (c = '.'))
  if rest.contains '.' then
    '.' :: (rest.reverse.takeWhile (fun c => !decide (c = '.'))).reverse
  else []

/-- The stem component of `os.path.splitext` on a separator-free file name:
the name with its extension (as in `extPart`) removed. -/
def stemPart (s : List Char) : List Char :=
  let leading := s.takeWhile (fun c => decide (c = '.'))
  let rest := s.dropWhile (fun c => decide (c = '.'))
  if rest.contains '.' then
    leading ++ ((rest.reverse.dropWhile (fun c => !decide (c = '.'))).drop 1).reverse
  else s

/-- The extension of a full path under `os.path.splitext`: only dots after the
last separator count. -/
def pathExt (p : List Char) : List Char := extPart (basename p)

/-- `os.path.join(a, b)` (POSIX, two components): `b` when `b` is absolute,
plain concatenation when `a` is empty or already ends in a separator, and
otherwise `a`, a separator, and `b`. -/
def pathJoin (a b : List Char) : List Char :=
  if b.head? = some '/' then b
  else if a = [] ∨ a.getLast? = some '/' then a ++ b
  else a ++ '/' :: b

/-- `bpy.path.ensure_ext(filepath, ext)` (case-insensitive): when the path
splits into a nonempty base and a nonempty extension that equals `ext` up to
case, the path is returned unchanged; otherwise `ext` is appended. -/
def ensure_ext (filepath ext : List Char) : List Char :=
  let fn_ext := pathExt filepath
  if fn_ext ≠ [] ∧ fn_ext.length < filepath.length ∧ lowerL ext = lowerL fn_ext then
    filepath
  else filepath ++ ext

/-- `bpy.path.abspath(p)`: a path starting with the Blender-relative marker
`//` is rebased onto the directory of the open document (`blendDir`, supplied
with its trailing separator); any other path is returned unchanged. -/
def bpyAbspath (blendDir p : List Char) : List Char :=
  if p.take 2 = ['/', '/'] then blendDir ++ p.drop 2 else p

/-- The output file path computed by `SplitParts.export_to_stl` (lines
131-151): expand the export path, take the document file name's basename
without its extension, append a dash and the sanitized object name, join with
the export path and ensure the `.stl` extension. -/
def stlFilepath (blendFilepath blendDir objName exportPathRaw : List Char) : List Char :=
  let export_path := bpyAbspath blendDir exportPathRaw
  let name0 := basename blendFilepath
  let name1 := stemPart name0
  let name := name1 ++ '-' :: sanitize objName
  let filepath := pathJoin export_path name
  ensure_ext filepath stlExt

/-- The observable steps of one `export_to_stl` call. -/
inductive ExpEvent where
  | mkdirAttempt : ExpEvent
  | logTraceback : ExpEvent
  | stlWrite : ExpEvent
deriving DecidableEq, Repr

/-- `os.makedirs(path, exist_ok)` over a list of existing directories: an
existing directory is an error only when `exist_ok` is false; otherwise the
directory is created (or kept). -/
def makedirs (dirs : List (List Char)) (path : List Char) (exist_ok : Bool) :
    Except (List Char) (List (List Char)) :=
  if path ∈ dirs then
    if exist_ok then Except.ok dirs else Except.error "FileExistsError".toList
  else Except.ok (path :: dirs)

/-- The control flow of `export_to_stl` (lines 126-158) around its two
fallible host calls.  When the expanded export path is nonempty the directory
creation (`os.makedirs(export_path, exist_ok=True)`) is attempted inside a
bare `try:`/`except:` whose handler prints the traceback; in every case
execution then reaches the `bpy.ops.export_mesh.stl` call, whose outcome is
the outcome of the whole function (nothing catches it).  The result is the
ordered trace of observable steps together with the function's outcome. -/
def export_to_stl_run (export_path : List Char)
    (mkdirResult : Except (List Char) Unit)
    (writeResult : Except (List Char) Unit) :
    List ExpEvent × Except (List Char) Unit :=
  let pre :=
    if export_path ≠ [] then
      ExpEvent.mkdirAttempt ::
        (match mkdirResult with
          | Except.ok _ => []
          | Except.error _ => [ExpEvent.logTraceback])
    else []
  (pre ++ [ExpEvent.stlWrite], writeResult)

/-- The export loop of `execute` (lines 198-203): each object of the
collection is passed to `export_to_stl` in turn; there is no exception
handling, so the first failing call propagates and ends the loop.  Returns
the list of objects whose export was attempted and the propagated error, if
any. -/
def exportLoop (f : Obj → Except (List Char) Unit) : List Obj → List Obj × Option (List Char)
  | [] => ([], none)
  | o :: rest =>
    match f o with
    | Except.ok _ =>
      let r := exportLoop f rest
      (o :: r.1, r.2)
    | Except.error e => ([o], some e)

/-! ## Helper lemmas -/

@[simp]
theorem vec_add_eq (a b : Vec3) :
    a + b = Vec3.mk (a.vx + b.vx) (a.vy + b.vy) (a.vz + b.vz) := rfl

@[simp]
theorem vec_sub_eq (a b : Vec3) :
    a - b = Vec3.mk (a.vx - b.vx) (a.vy - b.vy) (a.vz - b.vz) := rfl

@[simp]
theorem vec_neg_eq (a : Vec3) : -a = Vec3.mk (-a.vx) (-a.vy) (-a.vz) := rfl

theorem cutFrom_length (X Y Z i : Nat) (l : List Obj) :
    (cutFrom X Y Z i l).length = 2 * l.length := by
  induction l generalizing i with
  | nil => rfl
  | cons o rest ih =>
    simp only [cutFrom, List.length_cons, ih]
    omega

theorem cut_along_axis_length (objects : List Obj) (X Y Z : Nat) :
    (cut_along_axis objects X Y Z).length = 2 * objects.length :=
  cutFrom_length X Y Z 0 objects

/-! ## The claims -/

/-- C1: with `k` of the three axes enabled, each enabled axis pass (applied in
the fixed order X then Y then Z) turns every current piece into one inner and
one outer piece — one axis pass doubles the collection — so after the axis
passes of `execute()` the collection's object count equals the initial count
times `2 ^ k`. -/
theorem C1_piece_count (pieces : List Obj) (axis : Bool × Bool × Bool) :
    (∀ X Y Z : Nat, (cut_along_axis pieces X Y Z).length = 2 * pieces.length) ∧
      (executeCuts pieces axis).length = pieces.length * 2 ^ enabledCount axis := by
  refine ⟨fun X Y Z => cut_along_axis_length pieces X Y Z, ?_⟩
  obtain ⟨a, b, c⟩ := axis
  cases a <;> cases b <;> cases c <;>
    simp [executeCuts, enabledCount, cut_along_axis_length] <;> ring

/-- C2: for every piece processed in one axis pass, the bisection applied to
the inner copy is anchored at that object's current location with the computed
normal, discards the geometry on the outer side (`clear_outer`), keeps the
inner side (`clear_inner = false`) and fills the cut with a cap face; the
bisection applied to the outer copy is identical in shape except that the
inner/outer discard flags are swapped. -/
theorem C2_bisect_args (inner outer : Obj) (X Y Z : ℚ) :
    (cutStepArgs inner true X Y Z).plane_co = inner.location ∧
      (cutStepArgs inner true X Y Z).plane_no = (get_local_axis_vector inner X Y Z).1 ∧
      (cutStepArgs inner true X Y Z).use_fill = true ∧
      (cutStepArgs inner true X Y Z).clear_outer = true ∧
      (cutStepArgs inner true X Y Z).clear_inner = false ∧
      cutStepArgs outer false X Y Z =
        { plane_co := outer.location
          plane_no := (get_local_axis_vector outer X Y Z).1
          use_fill := true
          clear_inner := (cutStepArgs inner true X Y Z).clear_outer
          clear_outer := (cutStepArgs inner true X Y Z).clear_inner
          threshold := 0 } :=
  ⟨rfl, rfl, rfl, rfl, rfl, rfl⟩

/-- C4, counterexample: for the object at the origin with the identity
orientation and the X axis enabled, `get_local_axis_vector` does not return
the +1-unit local axis direction (it returns its negation, `(-1, 0, 0)`). -/
theorem C4_counterexample :
    (get_local_axis_vector (Obj.mk "Cube".toList (Vec3.mk 0 0 0) idMat Mode.OBJECT) 1 0 0).1 ≠
      idMat.mulVec (Vec3.mk 1 0 0) := by
  simp only [get_local_axis_vector, translateLocal, modeSet, Mat3.mulVec, dot, idMat,
    vec_add_eq, vec_sub_eq, Vec3.mk.injEq, ne_eq]
  norm_num

/-- C4, amended: for every object and axis-selection vector,
`get_local_axis_vector` returns the negation of the +1-unit local axis
direction expressed in the world frame (because `v1` is recorded before the
+1 translation and `v2` after it, and the function returns `v1 - v2`): the
result is the −1-unit local axis direction. -/
theorem C4_axis_vector_negated (o : Obj) (X Y Z : ℚ) :
    (get_local_axis_vector o X Y Z).1 = -(o.rot.mulVec (Vec3.mk X Y Z)) := by
  obtain ⟨n, ⟨lx, ly, lz⟩, rot, m⟩ := o
  simp only [get_local_axis_vector, translateLocal, modeSet, Mat3.mulVec, dot,
    vec_add_eq, vec_sub_eq, vec_neg_eq, Vec3.mk.injEq]
  refine ⟨by ring, by ring, by ring⟩

/-- C7: the export-name sanitization removes every occurrence of each
character of the set `\\ / : * ? " < > |` — the sanitized output contains none
of them — and sanitizing an already-sanitized name returns it unchanged. -/
theorem C7_sanitize_removes_and_idempotent (s : List Char) :
    (∀ c ∈ sanitize s, c ∉ badChars) ∧ sanitize (sanitize s) = sanitize s := by
  constructor
  · intro c hc
    have h := (List.mem_filter.mp hc).2
    simpa using h
  · refine List.filter_eq_self.mpr fun c hc => (List.mem_filter.mp hc).2

/-- C10: `get_local_axis_vector` restores the object it ran on (location moved
back by the inverse translation, mode restored), and calling it again with the
same axis arguments on the state the first call left behind yields the same
normal vector. -/
theorem C10_local_axis_idempotent (o : Obj) (X Y Z : ℚ) :
    (get_local_axis_vector o X Y Z).2 = o ∧
      (get_local_axis_vector (get_local_axis_vector o X Y Z).2 X Y Z).1 =
        (get_local_axis_vector o X Y Z).1 := by
  have hrestore : (get_local_axis_vector o X Y Z).2 = o := by
    obtain ⟨n, ⟨lx, ly, lz⟩, rot, m⟩ := o
    simp only [get_local_axis_vector, translateLocal, modeSet, Mat3.mulVec, dot,
      vec_add_eq, vec_sub_eq, Obj.mk.injEq, Vec3.mk.injEq]
    ring_nf
    simp
  exact ⟨hrestore, by rw [hrestore]⟩

/-! ## Concrete scene data for witnesses and counterexamples -/

/-- The first piece of a run: the duplicate of the source object, renamed
`"part"` on line 174. -/
def pieceA : Obj := Obj.mk "part".toList (Vec3.mk 0 0 0) idMat Mode.OBJECT

/-- A duplicate of `pieceA`; the host keeps object names unique by appending a
numeric suffix. -/
def pieceB : Obj := Obj.mk "part.001".toList (Vec3.mk 0 0 0) idMat Mode.OBJECT

/-- Python truthiness of the values that can appear in the set pairs of line
96: an object is truthy, a boolean is itself. -/
def truthy : PyVal → Bool
  | PyVal.objV _ => true
  | PyVal.boolV b => b

/-- Whether, in the run of one `cut_along_axis` iteration whose two set
iterations use the orders `ordI` (for `{ inner, True }`) and `ordO` (for
`{ outer, False }`), the duplicate `dup` is processed as the subobject of a
loop pass whose `is_inner` value is truthy — that is, whether the duplicate is
bound to the inner role. -/
def boundInnerRole (dup orig : Obj) (ordI ordO : Bool) : Bool :=
  (truthy (innerPairBinding orig ordI).2 &&
      decide ((innerPairBinding orig ordI).1 = PyVal.objV dup)) ||
    (truthy (outerPairBinding dup ordO).2 &&
      decide ((outerPairBinding dup ordO).1 = PyVal.objV dup))

/-- C3, counterexample: for the concrete original `pieceA` and its duplicate
`pieceB`, the duplicate is bound to the inner role in none of the four runs
(both iteration orders of both set pairs), so no two runs on this input differ
in which of the duplicate and the original receives the inner role: the sets
pair each object with its boolean flag, never the two objects with each
other. -/
theorem C3_counterexample :
    (boundInnerRole pieceB pieceA true true || boundInnerRole pieceB pieceA true false ||
        boundInnerRole pieceB pieceA false true ||
        boundInnerRole pieceB pieceA false false) = false := by
  decide

/-- C3, amended: the per-piece cut loop does iterate over unordered pair-like
sets, and the `(subobject, is_inner)` binding produced from `{ inner, True }`
differs between the two possible iteration orders; but what a swapped order
changes is which of the object and its boolean flag lands in each variable —
under the swapped order the boolean `True` is bound as the subobject and the
object as the flag — and under no order is the duplicate bound to the inner
role, so the discard-flag assignment never swaps between the original and the
duplicate. -/
theorem C3_unordered_pair (inner outer : Obj) (h : outer ≠ inner) :
    innerPairBinding inner true ≠ innerPairBinding inner false ∧
      (∀ ord : Bool, (innerPairBinding inner ord).1 ≠ PyVal.objV outer) ∧
      (innerPairBinding inner false).1 = PyVal.boolV true ∧
      (innerPairBinding inner false).2 = PyVal.objV inner := by
  refine ⟨?_, ?_, rfl, rfl⟩
  · intro hcontra
    have h1 := congrArg Prod.fst hcontra
    simp [innerPairBinding, pairIter] at h1
  · intro ord hcontra
    cases ord
    · simp [innerPairBinding, pairIter] at hcontra
    · simp only [innerPairBinding, pairIter, if_pos] at hcontra
      exact h (PyVal.objV.inj hcontra).symm

/-- Witness for C3's amended theorem at the concrete original `pieceA` and
duplicate `pieceB`. -/
theorem C3_unordered_pair_witness :
    pieceB ≠ pieceA ∧
      (innerPairBinding pieceA true ≠ innerPairBinding pieceA false ∧
        (∀ ord : Bool, (innerPairBinding pieceA ord).1 ≠ PyVal.objV pieceB) ∧
        (innerPairBinding pieceA false).1 = PyVal.boolV true ∧
        (innerPairBinding pieceA false).2 = PyVal.objV pieceA) :=
  ⟨by decide, C3_unordered_pair pieceA pieceB (by decide)⟩

/-- C5: when the collection named after the source object already exists,
`execute` reuses it: the lookup returns the existing collection and the list
of collections is unchanged — in particular no second collection (with or
without a numeric suffix) is created. -/
theorem C5_collection_reuse (existing : List (List Char)) (name : List Char)
    (h : name ∈ existing) :
    getOrCreateCollection existing name = (name, existing) := by
  simp [getOrCreateCollection, h]

/-- A scene holding the default collection and an already-derived
`Cube_parts` collection. -/
def demoCollections : List (List Char) :=
  ["Scene Collection".toList, collectionNameFor "Cube".toList]

/-- Witness for C5 at a concrete scene where `Cube_parts` already exists. -/
theorem C5_collection_reuse_witness :
    collectionNameFor "Cube".toList ∈ demoCollections ∧
      getOrCreateCollection demoCollections (collectionNameFor "Cube".toList) =
        (collectionNameFor "Cube".toList, demoCollections) :=
  ⟨by decide, C5_collection_reuse demoCollections (collectionNameFor "Cube".toList) (by decide)⟩

/-- C8: a failure of the directory-creation step of `export_to_stl` is caught
and logged (the traceback print appears in the trace), execution continues to
the STL write (which appears in the trace after the directory-creation
attempt), and the function's outcome is the write's outcome — the
directory-creation error is never propagated to the caller.  Moreover the
directory is created by `os.makedirs(export_path, exist_ok=True)`, whose
exist_ok semantics make an already-existing directory a success. -/
theorem C8_mkdir_failure_nonfatal (export_path e : List Char)
    (wr : Except (List Char) Unit) (dirs : List (List Char))
    (hp : export_path ≠ []) (hdir : export_path ∈ dirs) :
    export_to_stl_run export_path (Except.error e) wr =
        ([ExpEvent.mkdirAttempt, ExpEvent.logTraceback, ExpEvent.stlWrite], wr) ∧
      makedirs dirs export_path true = Except.ok dirs := by
  constructor
  · simp [export_to_stl_run, hp]
  · simp [makedirs, hdir]

/-- Witness for C8 at a concrete export path, error and write outcome. -/
theorem C8_mkdir_failure_nonfatal_witness :
    "/tmp/out".toList ≠ ([] : List Char) ∧
      "/tmp/out".toList ∈ ["/tmp/out".toList] ∧
      (export_to_stl_run "/tmp/out".toList (Except.error "oops".toList) (Except.ok ()) =
          ([ExpEvent.mkdirAttempt, ExpEvent.logTraceback, ExpEvent.stlWrite], Except.ok ()) ∧
        makedirs ["/tmp/out".toList] "/tmp/out".toList true =
          Except.ok ["/tmp/out".toList]) :=
  ⟨by decide, by decide,
    C8_mkdir_failure_nonfatal "/tmp/out".toList "oops".toList (Except.ok ())
      ["/tmp/out".toList] (by decide) (by decide)⟩

/-- The write outcome when the export directory is missing: every
`bpy.ops.export_mesh.stl` call fails with the same host error. -/
def alwaysFailWrite : Obj → Except (List Char) Unit :=
  fun _ => Except.error "No such file or directory".toList

/-- C9, counterexample: with two pieces in the collection and every file write
failing (the export directory could not be created), only the first piece's
export is attempted — the attempted list is `[pieceA]`, not both pieces — and
the error propagates out of the loop: a failing write does abort the sibling
exports. -/
theorem C9_counterexample :
    (exportLoop alwaysFailWrite [pieceA, pieceB]).1.map Obj.name = ["part".toList] ∧
      (exportLoop alwaysFailWrite [pieceA, pieceB]).1.map Obj.name ≠
        ["part".toList, "part.001".toList] ∧
      (exportLoop alwaysFailWrite [pieceA, pieceB]).2 =
        some "No such file or directory".toList :=
  ⟨rfl, by decide, rfl⟩

/-- C9, amended: the export loop of `execute` has no exception handling, so
the first piece whose export fails aborts the loop: that piece is the last one
attempted, the remaining sibling pieces are not attempted, and the error
propagates.  (Only a directory-creation failure inside `export_to_stl` is
non-fatal; a file-write failure is not caught anywhere.) -/
theorem C9_export_abort (f : Obj → Except (List Char) Unit) (o : Obj)
    (rest : List Obj) (e : List Char) (hf : f o = Except.error e) :
    exportLoop f (o :: rest) = ([o], some e) := by
  simp [exportLoop, hf]

/-- Witness for C9's amended theorem: a failing write on the first of two
pieces ends the loop at once. -/
theorem C9_export_abort_witness :
    alwaysFailWrite pieceA = Except.error "No such file or directory".toList ∧
      exportLoop alwaysFailWrite [pieceA, pieceB] =
        ([pieceA], some "No such file or directory".toList) :=
  ⟨rfl, C9_export_abort alwaysFailWrite pieceA [pieceB] "No such file or directory".toList rfl⟩

/-! ## The export file name (C6) -/

theorem basename_no_slash {c : Char} {s : List Char} (h : c ∈ basename s) : c ≠ '/' := by
  unfold basename at h
  rw [List.mem_reverse] at h
  have hp := List.mem_takeWhile_imp h
  simpa using hp

theorem mem_stemPart {c : Char} {s : List Char} (h : c ∈ stemPart s) : c ∈ s := by
  simp only [stemPart] at h
  split at h
  · rcases List.mem_append.mp h with hl | hr
    · exact (List.takeWhile_sublist _).mem hl
    · rw [List.mem_reverse] at hr
      have h1 := (List.drop_sublist 1 _).mem hr
      have h2 := (List.dropWhile_sublist _).mem h1
      rw [List.mem_reverse] at h2
      exact (List.dropWhile_sublist _).mem h2
  · exact h

theorem pathJoin_sep (a b : List Char) (hb : b.head? ≠ some '/') (ha : a ≠ [])
    (ha2 : a.getLast? ≠ some '/') : pathJoin a b = a ++ '/' :: b := by
  simp [pathJoin, hb, ha, ha2]

theorem ensure_ext_appends (p : List Char) (h : lowerL (pathExt p) ≠ lowerL stlExt) :
    ensure_ext p stlExt = p ++ stlExt := by
  simp only [ensure_ext]
  rw [if_neg]
  rintro ⟨-, -, heq⟩
  exact h heq.symm

/-- C6: the file written by the export helper is named
`<source-document-basename>-<sanitized-object-name>.stl` — the basename is the
document file name without its extension, sanitization removes the characters
`\\ / : * ? " < > |` — and it is placed in the configured export directory.
The hypotheses pin the ordinary case the naming rule describes: the export
directory is a plain nonempty path (no Blender-relative `//` marker, no
trailing separator) and the base-dash-name part does not itself already carry
a `.stl` extension (otherwise `bpy.path.ensure_ext` would not append one). -/
theorem C6_export_filename (blendFilepath blendDir objName exportPathRaw : List Char)
    (h1 : exportPathRaw.take 2 ≠ ['/', '/'])
    (h2 : exportPathRaw ≠ [])
    (h3 : exportPathRaw.getLast? ≠ some '/')
    (h4 : lowerL (pathExt (pathJoin exportPathRaw
        (stemPart (basename blendFilepath) ++ '-' :: sanitize objName))) ≠ lowerL stlExt) :
    stlFilepath blendFilepath blendDir objName exportPathRaw =
      (exportPathRaw ++ '/' :: (stemPart (basename blendFilepath) ++ '-' :: sanitize objName))
        ++ stlExt := by
  have habs : bpyAbspath blendDir exportPathRaw = exportPathRaw := by
    simp [bpyAbspath, h1]
  have hhead : (stemPart (basename blendFilepath) ++ '-' :: sanitize objName).head? ≠ some '/' := by
    cases hst : stemPart (basename blendFilepath) with
    | nil => simp
    | cons x t =>
      have hx : x ∈ stemPart (basename blendFilepath) := by
        rw [hst]; exact List.mem_cons_self x t
      have hxs : x ∈ basename blendFilepath := mem_stemPart hx
      have := basename_no_slash hxs
      simp [this]
  simp only [stlFilepath, habs]
  rw [pathJoin_sep _ _ hhead h2 h3]
  exact ensure_ext_appends _ (by rwa [pathJoin_sep _ _ hhead h2 h3] at h4)

/-- Witness for C6: document `/home/u/scene.blend`, the piece
`Part 0 - 1-0-0 - Inner`, export directory `/tmp/out`. -/
theorem C6_export_filename_witness :
    "/tmp/out".toList.take 2 ≠ ['/', '/'] ∧
      "/tmp/out".toList ≠ ([] : List Char) ∧
      "/tmp/out".toList.getLast? ≠ some '/' ∧
      lowerL (pathExt (pathJoin "/tmp/out".toList
          (stemPart (basename "/home/u/scene.blend".toList) ++
            '-' :: sanitize "Part 0 - 1-0-0 - Inner".toList))) ≠ lowerL stlExt ∧
      stlFilepath "/home/u/scene.blend".toList "/home/u/".toList
          "Part 0 - 1-0-0 - Inner".toList "/tmp/out".toList =
        ("/tmp/out".toList ++ '/' :: (stemPart (basename "/home/u/scene.blend".toList) ++
            '-' :: sanitize "Part 0 - 1-0-0 - Inner".toList)) ++ stlExt :=
  ⟨by decide, by decide, by decide, by decide,
    C6_export_filename "/home/u/scene.blend".toList "/home/u/".toList
      "Part 0 - 1-0-0 - Inner".toList "/tmp/out".toList
      (by decide) (by decide) (by decide) (by decide)⟩

end SplitPartsModel
